import Mathlib

/-!
Shallow embedding of the `SegmentedControl` component
(src/packages/@mantine/core/src/core/Box/Box.story.tsx, second document) and
proofs of the specified properties.

JavaScript numbers that can become `NaN` or `Infinity` in the indicator
geometry computation are modelled by `JSNum`: a rational for every finite
value plus the three IEEE special values that the relevant operations
(`/`, `*`, `+`, `-`, unary minus, truthiness) can produce.  No rounding is
involved in the claims, so rationals are exact for the finite case.
-/

namespace SegmentedControl

/-- A JavaScript number restricted to the values reachable in the geometry
computation: finite (exact rational), `NaN`, `Infinity`, `-Infinity`. -/
inductive JSNum where
  | num (q : ℚ)
  | nan
  | inf
  | neginf
  deriving DecidableEq, Repr

/-- JavaScript truthiness of a number: `0` and `NaN` are falsy. -/
def JSNum.truthy : JSNum → Bool
  | .num q => q != 0
  | .nan => false
  | .inf => true
  | .neginf => true

/-- A JavaScript number is finite iff it is neither `NaN` nor infinite. -/
def JSNum.isFinite : JSNum → Bool
  | .num _ => true
  | _ => false

/-- JavaScript `a || b` on numbers (used as `... || 0` in the source). -/
def jsOr (a b : JSNum) : JSNum := if a.truthy then a else b

/-- JavaScript multiplication with IEEE special-value semantics. -/
def JSNum.mul : JSNum → JSNum → JSNum
  | .nan, _ => .nan
  | _, .nan => .nan
  | .num a, .num b => .num (a * b)
  | .num a, .inf => if 0 < a then .inf else if a < 0 then .neginf else .nan
  | .num a, .neginf => if 0 < a then .neginf else if a < 0 then .inf else .nan
  | .inf, .num b => if 0 < b then .inf else if b < 0 then .neginf else .nan
  | .neginf, .num b => if 0 < b then .neginf else if b < 0 then .inf else .nan
  | .inf, .inf => .inf
  | .inf, .neginf => .neginf
  | .neginf, .inf => .neginf
  | .neginf, .neginf => .inf

/-- JavaScript division with IEEE special-value semantics (negative zero is not
modelled: DOM measurements are never `-0`). -/
def JSNum.div : JSNum → JSNum → JSNum
  | .nan, _ => .nan
  | _, .nan => .nan
  | .num a, .num b =>
      if b ≠ 0 then .num (a / b)
      else if 0 < a then .inf
      else if a < 0 then .neginf
      else .nan
  | .num _, .inf => .num 0
  | .num _, .neginf => .num 0
  | .inf, .num b => if 0 ≤ b then .inf else .neginf
  | .neginf, .num b => if 0 ≤ b then .neginf else .inf
  | .inf, _ => .nan
  | .neginf, _ => .nan

/-- JavaScript addition with IEEE special-value semantics. -/
def JSNum.add : JSNum → JSNum → JSNum
  | .nan, _ => .nan
  | _, .nan => .nan
  | .num a, .num b => .num (a + b)
  | .num _, .inf => .inf
  | .num _, .neginf => .neginf
  | .inf, .num _ => .inf
  | .neginf, .num _ => .neginf
  | .inf, .inf => .inf
  | .neginf, .neginf => .neginf
  | .inf, .neginf => .nan
  | .neginf, .inf => .nan

/-- JavaScript unary minus. -/
def JSNum.neg : JSNum → JSNum
  | .num a => .num (-a)
  | .nan => .nan
  | .inf => .neginf
  | .neginf => .inf

/-- JavaScript subtraction. -/
def JSNum.sub (a b : JSNum) : JSNum := a.add b.neg

/-- A React node appearing as a label: either plain text or some other
element (abstracted by an identifier). -/
inductive ReactNode where
  | str (s : String)
  | element (id : Nat)
  deriving DecidableEq, Repr

/-- `SegmentedControlItem` from the source: `value: string`,
`label: React.ReactNode`, `disabled?: boolean` (optional field). -/
structure SegmentedControlItem where
  value : String
  label : ReactNode
  disabled : Option Bool := none
  deriving DecidableEq, Repr

/-- One entry of the `data` prop: `string | SegmentedControlItem`. -/
inductive DataEntry where
  | str (s : String)
  | item (i : SegmentedControlItem)
  deriving DecidableEq, Repr

/-- The `_data` normalization step (source lines 210-212):
`typeof item === 'string' ? { label: item, value: item } : item`.
A string gains no `disabled` field (`none`). -/
def normalizeItem : DataEntry → SegmentedControlItem
  | .str s => { label := ReactNode.str s, value := s }
  | .item i => i

/-- `(data[0] as any)?.value`: a string has no `value` field (undefined,
i.e. `none`), a record yields its `value`, an empty list yields undefined. -/
def dataHeadValue : List DataEntry → Option String
  | [] => none
  | DataEntry.str _ :: _ => none
  | DataEntry.item i :: _ => some i.value

/-- The `finalValue` argument of `useUncontrolled` (source lines 217-219):
`_data.find((item) => !item.disabled)?.value ?? (data[0] as any)?.value ?? null`.
The `Array.isArray(data)` guard is always true for a list.  JavaScript
truthiness of the optional `disabled` sends `undefined` to `false`. -/
def finalValue (data : List DataEntry) : Option String :=
  (((data.map normalizeItem).find? fun i => !(i.disabled.getD false)).map
      fun i => i.value).orElse
    fun _ => dataHeadValue data

/-- Modelled from the spec: the `useUncontrolled` merge utility from
`@mantine/hooks` is not under `src/`; only its call site is.  Per the spec
(section 3 data model and the glossary), an uncontrolled component owns its
internal value, seeded by `defaultValue` when given, otherwise by the
computed `finalValue`.  This is that seed. -/
def initialInternalValue (defaultValue fallback : Option String) : Option String :=
  match defaultValue with
  | some d => some d
  | none => fallback

/-- The displayed (merged) value: a controlled component's displayed value is
fully determined by the externally supplied `value` prop; otherwise the
internal uncontrolled value is shown (spec glossary). -/
def mergedValue (value internal : Option String) : Option String :=
  match value with
  | some v => some v
  | none => internal

/-- Props of `SegmentedControl` restricted to the fields the claims touch.
`withItemsBorders` defaults to `true` (the `defaultProps` record); optional
booleans are modelled by their JavaScript truthiness (undefined = false). -/
structure SCProps where
  data : List DataEntry
  value : Option String := none
  defaultValue : Option String := none
  disabled : Bool := false
  readOnly : Bool := false
  fullWidth : Bool := false
  orientation : Option String := none
  withItemsBorders : Bool := true
  deriving DecidableEq, Repr

/-- Indicator geometry state (`activePosition`). -/
structure Position where
  width : JSNum
  height : JSNum
  translate : JSNum × JSNum
  deriving DecidableEq, Repr

/-- `{ width: 0, height: 0, translate: [0, 0] }`: both the `useState` initial
value (source lines 223-227) and the value set when the recorded label element
is gone (source line 262). -/
def hiddenPosition : Position :=
  { width := .num 0, height := .num 0, translate := (.num 0, .num 0) }

/-- Observable component state: the props as currently supplied by the
parent, the internal uncontrolled value, the `initialized` flag and the
trace of `onChange` invocations (in order). -/
structure SCWorld where
  props : SCProps
  internalValue : Option String
  initialized : Bool
  emitted : List String
  deriving DecidableEq, Repr

/-- State after mount: internal value seeded via `useUncontrolled`,
`initialized` starts `false` (source line 231), no `onChange` emitted yet. -/
def initWorld (props : SCProps) : SCWorld :=
  { props := props
    internalValue := initialInternalValue props.defaultValue (finalValue props.data)
    initialized := false
    emitted := [] }

/-- The displayed `_value` of the component in a given state. -/
def SCWorld.currentValue (w : SCWorld) : Option String :=
  mergedValue w.props.value w.internalValue

/-- Modelled from the spec: `useUncontrolled`'s change handler
(`handleValueChange`).  A user-initiated change invokes `onChange` exactly
once; in the uncontrolled case it also sets the internal value, while in the
controlled case the displayed value stays owned by the `value` prop. -/
def handleValueChange (w : SCWorld) (v : String) : SCWorld :=
  match w.props.value with
  | some _ => { w with emitted := w.emitted ++ [v] }
  | none => { w with internalValue := some v, emitted := w.emitted ++ [v] }

/-- The radio input's change handler (source line 292):
`() => !readOnly && handleValueChange(item.value)`. -/
def inputChange (w : SCWorld) (v : String) : SCWorld :=
  if w.props.readOnly then w else handleValueChange w v

/-- Events driving the component.  `timerFire` is the 20ms `useTimeout`
callback; the hook itself lives in `@mantine/hooks` outside `src/` and is
modelled from the spec as a deferred one-shot event after mount. -/
inductive Event where
  | change (v : String)
  | setControlledValue (v : Option String)
  | timerFire
  deriving DecidableEq, Repr

/-- One step of the component.  The timer branch is the source's
`if (getEnv() !== 'test') setInitialized(true)` (lines 268-273); `getEnv`
is outside `src/` and is modelled from the spec as an ambient environment
marker string. -/
def step (env : String) (w : SCWorld) : Event → SCWorld
  | .change v => inputChange w v
  | .setControlledValue v => { w with props := { w.props with value := v } }
  | .timerFire => if env != "test" then { w with initialized := true } else w

/-- Run a sequence of events. -/
def run (env : String) (w : SCWorld) (es : List Event) : SCWorld :=
  es.foldl (step env) w

/-- Rendered view of one control (the `controls` map, source lines 278-316):
the `mod` flags on the control and label plus the input attributes. -/
structure ControlView where
  active : Bool
  inputDisabled : Bool
  inputValue : String
  inputChecked : Bool
  labelActive : Bool
  labelDisabled : Bool
  labelReadOnly : Bool
  labelContent : ReactNode
  deriving DecidableEq, Repr

/-- Rendered view of the indicator (source lines 342-352). -/
structure IndicatorView where
  width : JSNum
  height : JSNum
  translate : JSNum × JSNum
  deriving DecidableEq, Repr

/-- Rendered view of the root element with the `mod` markers the claims
mention (source lines 324-356). -/
structure RootView where
  fullWidth : Bool
  orientation : Option String
  initialization : Bool
  withItemsBorders : Bool
  indicator : Option IndicatorView
  controls : List ControlView
  deriving DecidableEq, Repr

/-- One control of the `controls` list for item `item` under displayed value
`v` (source lines 278-316). -/
def renderControl (props : SCProps) (v : Option String) (item : SegmentedControlItem) :
    ControlView :=
  { active := v == some item.value
    inputDisabled := props.disabled || item.disabled.getD false
    inputValue := item.value
    inputChecked := v == some item.value
    labelActive := (v == some item.value) && !(props.disabled || item.disabled.getD false)
    labelDisabled := props.disabled || item.disabled.getD false
    labelReadOnly := props.readOnly
    labelContent := item.label }

/-- The render function (source lines 320-356): `null` for empty `data`;
otherwise the root with `initialization: !initialized`, the indicator only
under `typeof _value === 'string'`, and one control per normalized entry. -/
def render (props : SCProps) (v : Option String) (pos : Position) (initialized : Bool) :
    Option RootView :=
  if props.data.length = 0 then
    none
  else
    some
      { fullWidth := props.fullWidth
        orientation := props.orientation
        initialization := !initialized
        withItemsBorders := props.withItemsBorders
        indicator :=
          match v with
          | some _ =>
              some { width := pos.width, height := pos.height, translate := pos.translate }
          | none => none
        controls := (props.data.map normalizeItem).map (renderControl props v) }

/-- The result of `getRootPadding` (the helper lives outside `src/`); the
geometry claims quantify over it as a measurement input.  `bottom` is unused
by the effect. -/
structure RootPadding where
  top : ℚ
  left : ℚ
  right : ℚ
  deriving DecidableEq, Repr

/-- DOM measurements of the label element for the current value, read inside
the effect (source lines 239-258): `getBoundingClientRect().width`,
`offsetWidth`, `clientWidth`, `clientHeight` of the label, and
`offsetLeft`/`offsetTop` of its parent control. -/
structure ElementMeasurement where
  offsetWidth : ℚ
  rectWidth : ℚ
  clientWidth : ℚ
  clientHeight : ℚ
  parentOffsetLeft : ℚ
  parentOffsetTop : ℚ
  deriving DecidableEq, Repr

/-- Text direction from `useDirection`. -/
inductive Dir where
  | ltr
  | rtl
  deriving DecidableEq, Repr

/-- The geometry computation of the effect when the label element exists
(source lines 238-260), in JavaScript number semantics:
`scaledValue = offsetWidth / rect.width`,
`width = clientWidth * scaledValue || 0`,
`height = clientHeight * scaledValue || 0`,
`offsetRight = containerRect.width - parent.offsetLeft + (rtl ? pad.left : pad.right) - width`,
`offsetLeft = parent.offsetLeft - (rtl ? pad.right : pad.left)`,
translate `[rtl ? offsetRight * -1 : offsetLeft, parent.offsetTop - pad.top]`. -/
def computeActivePosition (dir : Dir) (containerWidth : ℚ) (pad : RootPadding)
    (m : ElementMeasurement) : Position :=
  let scaledValue := JSNum.div (.num m.offsetWidth) (.num m.rectWidth)
  let width := jsOr (JSNum.mul (.num m.clientWidth) scaledValue) (.num 0)
  let height := jsOr (JSNum.mul (.num m.clientHeight) scaledValue) (.num 0)
  let offsetRight :=
    JSNum.sub
      (JSNum.add (JSNum.sub (.num containerWidth) (.num m.parentOffsetLeft))
        (.num (if dir = Dir.rtl then pad.left else pad.right)))
      width
  let offsetLeft :=
    JSNum.sub (.num m.parentOffsetLeft)
      (.num (if dir = Dir.rtl then pad.right else pad.left))
  { width := width
    height := height
    translate :=
      (if dir = Dir.rtl then JSNum.mul offsetRight (.num (-1)) else offsetLeft,
        JSNum.sub (.num m.parentOffsetTop) (.num pad.top)) }

/-- The whole effect body (source lines 234-265).  `refs` is the
`refs.current` record: one entry per value a label ref callback has written,
`none` when the recorded node was null (control unmounted; React keeps the
key).  Guard `_value in refs.current && observerRef.current`; then
`if (element)` computes the geometry, else the indicator is hidden.  If the
guard fails the state is left unchanged.  Item values act as React keys and
are assumed distinct, so the first matching entry is the record's entry. -/
def updateActivePosition (dir : Dir) (refs : List (String × Option ElementMeasurement))
    (observerPresent : Bool) (containerWidth : ℚ) (pad : RootPadding)
    (v : String) (prev : Position) : Position :=
  if (refs.any fun p => p.1 == v) && observerPresent then
    match refs.lookup v with
    | some (some m) => computeActivePosition dir containerWidth pad m
    | some none => hiddenPosition
    | none => prev
  else prev

theorem dir_ltr_ne_rtl : ¬ (Dir.ltr = Dir.rtl) := by decide

theorem lookup_some_any (refs : List (String × Option ElementMeasurement)) (v : String)
    (o : Option ElementMeasurement) (h : refs.lookup v = some o) :
    (refs.any fun p => p.1 == v) = true := by
  induction refs with
  | nil => simp [List.lookup] at h
  | cons hd tl ih =>
    obtain ⟨k, b⟩ := hd
    rw [List.lookup] at h
    by_cases hk : (v == k) = true
    · have hkv : k = v := (eq_of_beq hk).symm
      subst hkv
      simp [List.any_cons]
    · simp only [Bool.not_eq_true] at hk
      rw [hk] at h
      simp [List.any_cons, ih h]

theorem inputChange_readOnly (w : SCWorld) (v : String) (h : w.props.readOnly = true) :
    inputChange w v = w := by
  simp [inputChange, h]

theorem run_change_readOnly (env : String) (vs : List String) (w : SCWorld)
    (h : w.props.readOnly = true) :
    run env w (vs.map Event.change) = w := by
  induction vs with
  | nil => rfl
  | cons v vs ih =>
    have h1 : run env w (List.map Event.change (v :: vs)) =
        run env (inputChange w v) (List.map Event.change vs) := rfl
    rw [h1, inputChange_readOnly w v h, ih]

theorem step_initialized_true (env : String) (w : SCWorld) (e : Event)
    (h : w.initialized = true) : (step env w e).initialized = true := by
  cases e with
  | change v =>
    simp only [step, inputChange, handleValueChange]
    split
    · exact h
    · split <;> exact h
  | setControlledValue v => exact h
  | timerFire =>
    simp only [step]
    split
    · rfl
    · exact h

theorem run_initialized_true (env : String) (es : List Event) (w : SCWorld)
    (h : w.initialized = true) : (run env w es).initialized = true := by
  induction es generalizing w with
  | nil => exact h
  | cons e es ih => exact ih _ (step_initialized_true env w e h)

theorem step_test_initialized (w : SCWorld) (e : Event) :
    (step "test" w e).initialized = w.initialized := by
  cases e with
  | change v =>
    simp only [step, inputChange, handleValueChange]
    split
    · rfl
    · split <;> rfl
  | setControlledValue v => rfl
  | timerFire => simp [step]

theorem run_test_initialized (es : List Event) (w : SCWorld) :
    (run "test" w es).initialized = w.initialized := by
  induction es generalizing w with
  | nil => rfl
  | cons e es ih => rw [show run "test" w (e :: es) = run "test" (step "test" w e) es from rfl,
      ih, step_test_initialized]

theorem jsOr_num_isFinite (x y : ℚ) : (jsOr (.num x) (.num y)).isFinite = true := by
  unfold jsOr
  split <;> rfl

/-- C1: with neither `value` nor `defaultValue` supplied, the initially
displayed value is the `value` of the first normalized entry whose
`disabled` flag is not set. -/
theorem initial_value_first_enabled (props : SCProps) (item : SegmentedControlItem)
    (hv : props.value = none) (hd : props.defaultValue = none)
    (hfind : ((props.data.map normalizeItem).find? fun i => !(i.disabled.getD false)) =
      some item) :
    (initWorld props).currentValue = some item.value := by
  simp [initWorld, SCWorld.currentValue, mergedValue, initialInternalValue, hv, hd,
    finalValue, hfind, Option.orElse]

theorem initial_value_first_enabled_witness :
    (initWorld { data := [DataEntry.str "react", DataEntry.str "ng"] }).currentValue =
      some "react" :=
  initial_value_first_enabled _ { value := "react", label := ReactNode.str "react" }
    rfl rfl (by decide)

/-- C2: with empty `data` the component renders no output. -/
theorem render_empty_data (props : SCProps) (v : Option String) (pos : Position)
    (initialized : Bool) (h : props.data = []) :
    render props v pos initialized = none := by
  simp [render, h]

theorem render_empty_data_witness :
    render { data := [] } none hiddenPosition false = none :=
  render_empty_data _ _ _ _ rfl

/-- C7: normalization maps a plain string `s` to the record
`{ label: s, value: s }` (label equal to the value, no `disabled` field) and
passes an existing record through unchanged. -/
theorem normalizeItem_spec :
    (∀ s : String,
        normalizeItem (DataEntry.str s) =
          { value := s, label := ReactNode.str s, disabled := none } ∧
        (normalizeItem (DataEntry.str s)).label =
          ReactNode.str (normalizeItem (DataEntry.str s)).value) ∧
    (∀ i : SegmentedControlItem, normalizeItem (DataEntry.item i) = i) :=
  ⟨fun _ => ⟨rfl, rfl⟩, fun _ => rfl⟩

/-- C4: with `readOnly` true, no sequence of change events on the controls
ever invokes `onChange` or alters the displayed value. -/
theorem readOnly_suppresses_change (env : String) (props : SCProps) (vs : List String)
    (h : props.readOnly = true) :
    (run env (initWorld props) (vs.map Event.change)).emitted = [] ∧
    (run env (initWorld props) (vs.map Event.change)).currentValue =
      (initWorld props).currentValue := by
  rw [run_change_readOnly env vs (initWorld props) h]
  exact ⟨rfl, rfl⟩

theorem readOnly_suppresses_change_witness :
    (run "dev" (initWorld { data := [DataEntry.str "a", DataEntry.str "b"], readOnly := true })
        (["b", "a", "b"].map Event.change)).emitted = [] ∧
    (run "dev" (initWorld { data := [DataEntry.str "a", DataEntry.str "b"], readOnly := true })
        (["b", "a", "b"].map Event.change)).currentValue =
      (initWorld { data := [DataEntry.str "a", DataEntry.str "b"], readOnly := true }).currentValue :=
  readOnly_suppresses_change "dev" _ _ rfl

/-- C5: in the uncontrolled mode (`value` prop absent) with `readOnly` false,
a single change event for a value present in `data` sets the displayed value
to it and appends exactly one `onChange` invocation; a programmatic update of
the controlled `value` prop emits no `onChange` invocation. -/
theorem change_emits_once (env : String) (w : SCWorld) (v : String)
    (hro : w.props.readOnly = false) (hctl : w.props.value = none)
    (_hmem : v ∈ (w.props.data.map normalizeItem).map fun i => i.value) :
    ((step env w (Event.change v)).currentValue = some v ∧
      (step env w (Event.change v)).emitted = w.emitted ++ [v]) ∧
    ∀ (w2 : SCWorld) (v2 : Option String),
      (step env w2 (Event.setControlledValue v2)).emitted = w2.emitted := by
  refine ⟨⟨?_, ?_⟩, fun w2 v2 => rfl⟩
  · simp [step, inputChange, hro, handleValueChange, hctl, SCWorld.currentValue, mergedValue]
  · simp [step, inputChange, hro, handleValueChange, hctl]

theorem change_emits_once_witness :
    ((step "dev" (initWorld { data := [DataEntry.str "a"] }) (Event.change "a")).currentValue =
        some "a" ∧
      (step "dev" (initWorld { data := [DataEntry.str "a"] }) (Event.change "a")).emitted =
        [] ++ ["a"]) ∧
    ∀ (w2 : SCWorld) (v2 : Option String),
      (step "dev" w2 (Event.setControlledValue v2)).emitted = w2.emitted :=
  change_emits_once "dev" _ "a" rfl rfl (by decide)

/-- The rendered root for the one-entry list `["a"]` with no displayed value
and `initialized` false: a concrete render output used to instantiate
theorems at closed inputs. -/
def sampleRootView : RootView :=
  { fullWidth := false
    orientation := none
    initialization := true
    withItemsBorders := true
    indicator := none
    controls := [{ active := false
                   inputDisabled := false
                   inputValue := "a"
                   inputChecked := false
                   labelActive := false
                   labelDisabled := false
                   labelReadOnly := false
                   labelContent := ReactNode.str "a" }] }

/-- C8: the transition-suppressing flag starts false (the root carries the
`initialization` marker on first paint), becomes true once the deferred timer
fires outside the test environment and stays true afterwards, and is never
set in the test environment. -/
theorem initialization_flag :
    (∀ props : SCProps, (initWorld props).initialized = false) ∧
    (∀ (props : SCProps) (v : Option String) (pos : Position) (view : RootView),
        render props v pos false = some view → view.initialization = true) ∧
    (∀ (env : String) (w : SCWorld) (es1 es2 : List Event), env ≠ "test" →
        (run env w (es1 ++ Event.timerFire :: es2)).initialized = true) ∧
    (∀ (props : SCProps) (es : List Event),
        (run "test" (initWorld props) es).initialized = false) := by
  refine ⟨fun _ => rfl, ?_, ?_, ?_⟩
  · intro props v pos view h
    unfold render at h
    by_cases hlen : props.data.length = 0
    · simp [hlen] at h
    · simp only [hlen, ite_false] at h
      cases h
      rfl
  · intro env w es1 es2 henv
    have hsplit : run env w (es1 ++ Event.timerFire :: es2) =
        run env (step env (run env w es1) Event.timerFire) es2 := by
      simp [run, List.foldl_append]
    rw [hsplit]
    apply run_initialized_true
    have hbne : (env != "test") = true := by simpa [bne_iff_ne] using henv
    simp [step, hbne]
  · intro props es
    rw [run_test_initialized]
    rfl

theorem initialization_flag_witness :
    (initWorld { data := [DataEntry.str "a"] }).initialized = false ∧
    sampleRootView.initialization = true ∧
    (run "storybook" (initWorld { data := [DataEntry.str "a"] })
        ([] ++ Event.timerFire :: [Event.change "a"])).initialized = true ∧
    (run "test" (initWorld { data := [DataEntry.str "a"] }) [Event.timerFire]).initialized =
      false :=
  ⟨initialization_flag.1 _,
    initialization_flag.2.1 { data := [DataEntry.str "a"] } none hiddenPosition
      sampleRootView rfl,
    initialization_flag.2.2.1 "storybook" _ [] [Event.change "a"] (by decide),
    initialization_flag.2.2.2 _ [Event.timerFire]⟩

/-- C9: a rendered root contains the indicator element exactly when the merged
displayed value is a string; with a null merged value no indicator appears. -/
theorem indicator_requires_string (props : SCProps) (internal : Option String)
    (pos : Position) (initialized : Bool) (view : RootView)
    (h : render props (mergedValue props.value internal) pos initialized = some view) :
    view.indicator.isSome = (mergedValue props.value internal).isSome ∧
    (mergedValue props.value internal = none → view.indicator = none) := by
  unfold render at h
  by_cases hlen : props.data.length = 0
  · simp [hlen] at h
  · simp only [hlen, ite_false] at h
    cases h
    rcases hv : mergedValue props.value internal with _ | s <;> simp [hv]

theorem indicator_requires_string_witness :
    sampleRootView.indicator.isSome = (mergedValue none none).isSome ∧
    (mergedValue none none = none → sampleRootView.indicator = none) :=
  indicator_requires_string { data := [DataEntry.str "a"] } none hiddenPosition false
    sampleRootView rfl

/-- C3 counterexample: when the selected value was never recorded in the refs
map (it matches no rendered control and no unmounted one), the effect leaves
the previous non-zero geometry in place instead of hiding the indicator. -/
theorem stale_value_position_unchanged :
    updateActivePosition Dir.ltr
      [("a", some { offsetWidth := 20
                    rectWidth := 20
                    clientWidth := 20
                    clientHeight := 10
                    parentOffsetLeft := 10
                    parentOffsetTop := 0 })]
      true 100 { top := 0, left := 0, right := 0 } "b"
      { width := .num 5, height := .num 6, translate := (.num 7, .num 8) } ≠
      hiddenPosition := by
  norm_num [updateActivePosition, hiddenPosition]
  rw [if_neg (by decide : ¬("a" = "b"))]
  norm_num

/-- C3 amended: when the selected value is recorded in the refs map but its
element is null (the control unmounted) and the observer ref is present, the
effect sets the indicator hidden (width 0, height 0, translate (0, 0)); when
the value is not a key of the refs map at all, the effect leaves the geometry
state unchanged. -/
theorem effect_unmounted_value_hides :
    (∀ (dir : Dir) (refs : List (String × Option ElementMeasurement)) (cw : ℚ)
        (pad : RootPadding) (v : String) (prev : Position),
        refs.lookup v = some none →
        updateActivePosition dir refs true cw pad v prev = hiddenPosition) ∧
    (∀ (dir : Dir) (refs : List (String × Option ElementMeasurement)) (observer : Bool)
        (cw : ℚ) (pad : RootPadding) (v : String) (prev : Position),
        (refs.any fun p => p.1 == v) = false →
        updateActivePosition dir refs observer cw pad v prev = prev) := by
  constructor
  · intro dir refs cw pad v prev h
    have hany := lookup_some_any refs v none h
    simp [updateActivePosition, hany, h]
  · intro dir refs observer cw pad v prev h
    simp [updateActivePosition, h]

theorem effect_unmounted_value_hides_witness :
    updateActivePosition Dir.ltr [("a", (none : Option ElementMeasurement))] true 0
        { top := 0, left := 0, right := 0 } "a" hiddenPosition = hiddenPosition ∧
    updateActivePosition Dir.ltr [] true 0 { top := 0, left := 0, right := 0 } "b"
        { width := .num 5, height := .num 6, translate := (.num 7, .num 8) } =
      { width := .num 5, height := .num 6, translate := (.num 7, .num 8) } :=
  ⟨effect_unmounted_value_hides.1 _ _ _ _ _ _ rfl,
    effect_unmounted_value_hides.2 _ _ _ _ _ _ _ rfl⟩

/-- C6 counterexample: with fixed measurements (container width 100, parent
offset 10, zero padding, element 20 wide), the rtl horizontal translate is
-70 while the negated ltr translate is -10, so the sign is not mirrored. -/
theorem rtl_translate_not_sign_mirrored :
    (computeActivePosition Dir.rtl 100 { top := 0, left := 0, right := 0 }
        { offsetWidth := 20
          rectWidth := 20
          clientWidth := 20
          clientHeight := 10
          parentOffsetLeft := 10
          parentOffsetTop := 0 }).translate.1 ≠
      JSNum.neg
        ((computeActivePosition Dir.ltr 100 { top := 0, left := 0, right := 0 }
            { offsetWidth := 20
              rectWidth := 20
              clientWidth := 20
              clientHeight := 10
              parentOffsetLeft := 10
              parentOffsetTop := 0 }).translate.1) := by
  norm_num [computeActivePosition, JSNum.div, JSNum.mul, jsOr, JSNum.truthy,
    JSNum.add, JSNum.sub, JSNum.neg, dir_ltr_ne_rtl]

/-- C6 amended: for fixed measurements, rtl and ltr yield the same indicator
width, height and vertical translate; only the horizontal translate differs,
and under rtl it equals the negated right-edge offset
`-(containerWidth - parentOffsetLeft + rootPadding.left - width)` rather than
the sign-mirrored ltr offset. -/
theorem rtl_same_size_mirrored_edge (cw : ℚ) (pad : RootPadding)
    (m : ElementMeasurement) :
    (computeActivePosition Dir.rtl cw pad m).width =
      (computeActivePosition Dir.ltr cw pad m).width ∧
    (computeActivePosition Dir.rtl cw pad m).height =
      (computeActivePosition Dir.ltr cw pad m).height ∧
    (computeActivePosition Dir.rtl cw pad m).translate.2 =
      (computeActivePosition Dir.ltr cw pad m).translate.2 ∧
    (computeActivePosition Dir.rtl cw pad m).translate.1 =
      JSNum.mul
        (JSNum.sub
          (JSNum.add (JSNum.sub (.num cw) (.num m.parentOffsetLeft)) (.num pad.left))
          (computeActivePosition Dir.ltr cw pad m).width)
        (.num (-1)) :=
  ⟨rfl, rfl, rfl, rfl⟩

/-- C10 counterexample: a zero element rect width with positive offset and
client widths makes the scale factor Infinity; the `|| 0` guard keeps the
truthy Infinity, so the stored width is Infinity, not 0 and not finite. -/
theorem zero_rect_width_inf :
    (computeActivePosition Dir.ltr 100 { top := 0, left := 0, right := 0 }
        { offsetWidth := 20
          rectWidth := 0
          clientWidth := 20
          clientHeight := 10
          parentOffsetLeft := 10
          parentOffsetTop := 0 }).width = JSNum.inf ∧
    JSNum.inf.isFinite = false ∧ JSNum.inf ≠ JSNum.num 0 := by
  refine ⟨?_, rfl, by decide⟩
  norm_num [computeActivePosition, JSNum.div, JSNum.mul, jsOr, JSNum.truthy, dir_ltr_ne_rtl]

/-- C10 amended: the `|| 0` guard replaces the `NaN` produced by a zero rect
width together with a zero offset width, so width and height fall back to 0
there; whenever the rect width is nonzero, the stored width and height are
finite.  (Infinity escapes the guard: see the counterexample.) -/
theorem geometry_guard :
    (∀ (dir : Dir) (cw : ℚ) (pad : RootPadding) (m : ElementMeasurement),
        m.rectWidth = 0 → m.offsetWidth = 0 →
        (computeActivePosition dir cw pad m).width = .num 0 ∧
        (computeActivePosition dir cw pad m).height = .num 0) ∧
    (∀ (dir : Dir) (cw : ℚ) (pad : RootPadding) (m : ElementMeasurement),
        m.rectWidth ≠ 0 →
        (computeActivePosition dir cw pad m).width.isFinite = true ∧
        (computeActivePosition dir cw pad m).height.isFinite = true) := by
  constructor
  · intro dir cw pad m h1 h2
    simp [computeActivePosition, JSNum.div, JSNum.mul, jsOr, JSNum.truthy, h1, h2]
  · intro dir cw pad m h1
    simp [computeActivePosition, JSNum.div, JSNum.mul, h1, jsOr_num_isFinite]

theorem geometry_guard_witness :
    ((computeActivePosition Dir.ltr 100 { top := 0, left := 0, right := 0 }
        { offsetWidth := 0
          rectWidth := 0
          clientWidth := 5
          clientHeight := 5
          parentOffsetLeft := 0
          parentOffsetTop := 0 }).width = .num 0 ∧
      (computeActivePosition Dir.ltr 100 { top := 0, left := 0, right := 0 }
        { offsetWidth := 0
          rectWidth := 0
          clientWidth := 5
          clientHeight := 5
          parentOffsetLeft := 0
          parentOffsetTop := 0 }).height = .num 0) ∧
    ((computeActivePosition Dir.ltr 100 { top := 0, left := 0, right := 0 }
        { offsetWidth := 2
          rectWidth := 2
          clientWidth := 5
          clientHeight := 5
          parentOffsetLeft := 0
          parentOffsetTop := 0 }).width.isFinite = true ∧
      (computeActivePosition Dir.ltr 100 { top := 0, left := 0, right := 0 }
        { offsetWidth := 2
          rectWidth := 2
          clientWidth := 5
          clientHeight := 5
          parentOffsetLeft := 0
          parentOffsetTop := 0 }).height.isFinite = true) :=
  ⟨geometry_guard.1 _ _ _ _ rfl rfl, geometry_guard.2 _ _ _ _ (by norm_num)⟩
